import Mathlib

/-!
Verification of the frameserver synchronization core (src/main.go).

The development shallowly embeds the parts of the program the claims are
about: the `getJPEG` HTTP handler (serves `data[:jpegLen]` under the read
side of a `sync.RWMutex` after setting `Cache-Control: no-store`), the
`framePump` loop (select, Lock, VIDIOC_DQBUF, store `jpegLen`, Unlock,
VIDIOC_QBUF, returning the errno on any failure), and the shutdown
STREAMOFF defer in `main` (which calls `log.Fatal` when the ioctl fails).

Two models are used:
* a sequential model of `framePump` as a function over a finite list of
  per-iteration environment outcomes (what select, DQBUF and QBUF
  returned, and what content the hardware had written into the mapped
  buffer by dequeue time);
* a small-step concurrent model of the whole system (pump, readers,
  capture hardware writing into the mapped buffer while the slot is
  enqueued) for claims about interleavings.
-/

namespace Frameserver

/-- Errno value produced by a syscall; 0 means success. -/
abbrev Errno := Nat

/-- An HTTP response produced by the `getJPEG` handler: the value it sets
for the Cache-Control header, and the body bytes it writes. -/
structure Response where
  cacheControl : String
  body : List Nat
deriving DecidableEq, Repr

/-- The `getJPEG` handler body from src/main.go, lines 115-124: under the
read lock it sets `Cache-Control: no-store` and writes `data[:jpegLen]`.
A Go slice expression `data[:n]` with `n > len(data)` panics (the mmapped
slice has capacity equal to its length), modelled as `none`; there is no
bounds check in the handler. -/
def getJPEG (data : List Nat) (jpegLen : Nat) : Option Response :=
  if jpegLen ≤ data.length then
    some { cacheControl := "no-store", body := data.take jpegLen }
  else
    none

/-- The shared state touched by the pump: the mapped buffer contents, the
global `jpegLen` (zero-valued at startup), and whether the pump currently
holds the write side of the RWMutex. -/
structure PumpState where
  data : List Nat
  jpegLen : Nat
  lockHeld : Bool
deriving DecidableEq, Repr

/-- State at program start: mapped buffer contents `d`, `jpegLen = 0`
(Go zero value of the global), lock free. -/
def initialState (d : List Nat) : PumpState :=
  { data := d, jpegLen := 0, lockHeld := false }

/-- Environment outcome of one `framePump` loop iteration: the errno of
`unix.Select`, the errno of the DQBUF ioctl, the mapped-buffer contents the
hardware had written by dequeue time together with the `bytesused` count it
reported, and the errno of the QBUF ioctl. -/
structure IterEnv where
  selectErrno : Errno
  deqErrno : Errno
  frame : List Nat
  bytesused : Nat
  enqErrno : Errno
deriving DecidableEq, Repr

/-- One iteration of the `framePump` loop body (src/main.go lines 135-178):
wait for the frame (return the error if select fails); `mutex.Lock()`;
DQBUF (on nonzero errno, `mutex.Unlock()` and return it); store
`jpegLen = qbuf.bytesused` with the hardware-written frame now stable in
the mapped buffer; `mutex.Unlock()`; QBUF (on nonzero errno return it). -/
def pumpIter (s : PumpState) (env : IterEnv) : PumpState × Option Errno :=
  if env.selectErrno ≠ 0 then
    (s, some env.selectErrno)
  else
    let s1 : PumpState := { s with lockHeld := true }
    if env.deqErrno ≠ 0 then
      ({ s1 with lockHeld := false }, some env.deqErrno)
    else
      let s2 : PumpState := { s1 with data := env.frame, jpegLen := env.bytesused }
      let s3 : PumpState := { s2 with lockHeld := false }
      if env.enqErrno ≠ 0 then
        (s3, some env.enqErrno)
      else
        (s3, none)

/-- The `framePump` loop run over a finite list of iteration environments:
it keeps iterating while iterations succeed, and returns the errno of the
first failing iteration, after which no further iteration runs.  `none`
means the loop is still running when the modelled environments are
exhausted; the Go loop itself has no other exit. -/
def framePump (s : PumpState) : List IterEnv → PumpState × Option Errno
  | [] => (s, none)
  | env :: rest =>
    match pumpIter s env with
    | (s1, none) => framePump s1 rest
    | (s1, some e) => (s1, some e)

/-- Observable outcome of the deferred STREAMOFF path in `main`
(src/main.go lines 284-295): whether anything was logged and whether the
process was aborted. -/
structure StopOutcome where
  logged : Bool
  aborted : Bool
deriving DecidableEq, Repr

/-- The deferred stream-stop in `main`: issue VIDIOC_STREAMOFF; if the
ioctl returns a nonzero errno, call `log.Fatal` — which writes the log
message and then exits the process with status 1.  On success nothing is
logged and the defer returns normally. -/
def stopStreamDefer (errno : Errno) : StopOutcome :=
  if errno ≠ 0 then
    { logged := true, aborted := true }
  else
    { logged := false, aborted := false }

/-! Helper lemmas about the sequential pump model. -/

/-- If the pump enters an iteration with the lock free, it leaves the
iteration with the lock free, whether the iteration succeeds or fails. -/
theorem pumpIter_lock (s : PumpState) (env : IterEnv) (hl : s.lockHeld = false) :
    (pumpIter s env).1.lockHeld = false := by
  unfold pumpIter
  split_ifs
  all_goals simp [hl]

/-- A successful iteration always leaves the lock free. -/
theorem pumpIter_ok_lock (s : PumpState) (env : IterEnv)
    (h : (pumpIter s env).2 = none) : (pumpIter s env).1.lockHeld = false := by
  unfold pumpIter at h ⊢
  split_ifs at h ⊢
  all_goals simp_all

/-- Starting with the lock free, any run of the pump ends with the lock
free. -/
theorem framePump_lock (envs : List IterEnv) :
    ∀ s : PumpState, s.lockHeld = false → (framePump s envs).1.lockHeld = false := by
  induction envs with
  | nil => intro s hl; simpa [framePump] using hl
  | cons env rest ih =>
    intro s hl
    rcases hp : pumpIter s env with ⟨s1, r⟩
    have h1 : s1.lockHeld = false := by
      have := pumpIter_lock s env hl
      rw [hp] at this
      exact this
    cases r with
    | none => simpa [framePump, hp] using ih s1 h1
    | some e => simpa [framePump, hp] using h1

/-- A run over `pre ++ rest` where the `pre` part completes without error
continues from the state reached after `pre`. -/
theorem framePump_append (pre rest : List IterEnv) :
    ∀ s : PumpState, (framePump s pre).2 = none →
      framePump s (pre ++ rest) = framePump (framePump s pre).1 rest := by
  induction pre with
  | nil => intro s _; simp [framePump]
  | cons env pre0 ih =>
    intro s h
    rcases hp : pumpIter s env with ⟨s1, r⟩
    cases r with
    | none =>
      have h0 : (framePump s1 pre0).2 = none := by
        rw [framePump, hp] at h
        exact h
      simp only [List.cons_append, framePump, hp]
      exact ih s1 h0
    | some e =>
      rw [framePump, hp] at h
      simp at h

/-- An iteration returns `some e` only for a nonzero errno: the Go loop
body returns only on a failed select, DQBUF or QBUF, each guarded by a
nonzero errno test. -/
theorem pumpIter_error_ne_zero (s : PumpState) (env : IterEnv) (e : Errno)
    (h : (pumpIter s env).2 = some e) : e ≠ 0 := by
  unfold pumpIter at h
  split_ifs at h with h1 h2 h3 <;> simp_all

/-- From the initial state, an iteration that fails at select or at DQBUF
leaves the state exactly the initial state and reports some errno. -/
theorem pumpIter_initial_fail (d : List Nat) (env : IterEnv)
    (h : env.selectErrno ≠ 0 ∨ env.deqErrno ≠ 0) :
    ∃ e : Errno, pumpIter (initialState d) env = (initialState d, some e) := by
  unfold pumpIter initialState
  split_ifs with h1 h2 h3
  · exact ⟨env.selectErrno, rfl⟩
  · exact ⟨env.deqErrno, rfl⟩
  · rcases h with h | h
    · exact absurd h h1
    · exact absurd h h2
  · rcases h with h | h
    · exact absurd h h1
    · exact absurd h h2

/-! Claim theorems. -/

/-- C1, counterexample: a request served before any update does NOT get a
distinguished NoFrameYet signal — with `jpegLen` still at its zero initial
value, `getJPEG` silently produces a normal response whose body is the
empty byte sequence (`data[:0]`), contradicting the claim that the result
is NoFrameYet and not an empty byte sequence.  No NoFrameYet signal exists
anywhere in src/main.go. -/
theorem c1_counterexample :
    getJPEG (initialState [0, 0, 0, 0]).data (initialState [0, 0, 0, 0]).jpegLen
      = some { cacheControl := "no-store", body := [] } := by
  decide

/-- C1, amended: before the first successful dequeue — that is, after any
run of the pump in which every iteration failed at select or at DQBUF —
`jpegLen` is still 0 and the handler returns an ordinary response with a
zero-length body, not a distinguished not-ready signal. -/
theorem c1_amended (d : List Nat) (envs : List IterEnv)
    (h : ∀ env ∈ envs, env.selectErrno ≠ 0 ∨ env.deqErrno ≠ 0) :
    (framePump (initialState d) envs).1.jpegLen = 0 ∧
    getJPEG (framePump (initialState d) envs).1.data
        (framePump (initialState d) envs).1.jpegLen
      = some { cacheControl := "no-store", body := [] } := by
  cases envs with
  | nil => simp [framePump, initialState, getJPEG]
  | cons env rest =>
    obtain ⟨e, hp⟩ := pumpIter_initial_fail d env (h env (List.mem_cons_self env rest))
    simp only [framePump]
    rw [hp]
    simp [initialState, getJPEG]

/-- Concrete iteration environment in which select fails with errno 1. -/
def c1SelFailEnv : IterEnv :=
  { selectErrno := 1, deqErrno := 0, frame := [], bytesused := 0, enqErrno := 0 }

/-- C1, witness for the amended theorem at a concrete run: one iteration
whose select fails with errno 1. -/
theorem c1_amended_witness :
    (∀ env ∈ [c1SelFailEnv], env.selectErrno ≠ 0 ∨ env.deqErrno ≠ 0) ∧
    ((framePump (initialState [3]) [c1SelFailEnv]).1.jpegLen = 0 ∧
     getJPEG (framePump (initialState [3]) [c1SelFailEnv]).1.data
        (framePump (initialState [3]) [c1SelFailEnv]).1.jpegLen
       = some { cacheControl := "no-store", body := [] }) :=
  ⟨by decide, c1_amended [3] [c1SelFailEnv] (by decide)⟩

/-- C3: after exactly one fully successful pump iteration whose dequeue
reported `bytesused = L` with `L` within the mapped length, the handler
returns exactly `L` bytes, equal to the first `L` bytes the hardware wrote
into the mapped buffer during that update. -/
theorem c3_one_update_read (s : PumpState) (env : IterEnv)
    (hs : env.selectErrno = 0) (hd : env.deqErrno = 0) (he : env.enqErrno = 0)
    (hL : env.bytesused ≤ env.frame.length) :
    getJPEG (framePump s [env]).1.data (framePump s [env]).1.jpegLen
      = some { cacheControl := "no-store", body := env.frame.take env.bytesused } ∧
    (env.frame.take env.bytesused).length = env.bytesused := by
  have hp : pumpIter s env
      = ({ data := env.frame, jpegLen := env.bytesused, lockHeld := false }, none) := by
    unfold pumpIter
    split_ifs <;> simp_all
  refine ⟨?_, ?_⟩
  · simp [framePump, hp, getJPEG, hL]
  · simp [List.length_take, Nat.min_eq_left hL]

/-- Concrete fully successful iteration: the hardware wrote [9, 8, 7, 6]
and DQBUF reported bytesused 3. -/
def c3OkEnv : IterEnv :=
  { selectErrno := 0, deqErrno := 0, frame := [9, 8, 7, 6], bytesused := 3, enqErrno := 0 }

/-- C3, witness: one successful update writing frame [9, 8, 7, 6] with
bytesused 3 yields the response body [9, 8, 7]. -/
theorem c3_one_update_read_witness :
    (c3OkEnv.selectErrno = 0 ∧ c3OkEnv.deqErrno = 0 ∧ c3OkEnv.enqErrno = 0 ∧
     c3OkEnv.bytesused ≤ c3OkEnv.frame.length) ∧
    (getJPEG (framePump (initialState [0, 0, 0, 0]) [c3OkEnv]).1.data
        (framePump (initialState [0, 0, 0, 0]) [c3OkEnv]).1.jpegLen
      = some { cacheControl := "no-store", body := c3OkEnv.frame.take c3OkEnv.bytesused } ∧
     (c3OkEnv.frame.take c3OkEnv.bytesused).length = c3OkEnv.bytesused) :=
  ⟨by decide, c3_one_update_read (initialState [0, 0, 0, 0]) c3OkEnv
    (by decide) (by decide) (by decide) (by decide)⟩

/-- A failing iteration at the head of the environment list stops the loop
at once with that iteration's errno and state. -/
theorem framePump_cons_error (s : PumpState) (env : IterEnv) (rest : List IterEnv)
    (e : Errno) (h : (pumpIter s env).2 = some e) :
    framePump s (env :: rest) = ((pumpIter s env).1, some e) := by
  rcases hp : pumpIter s env with ⟨s1, r⟩
  rw [hp] at h
  simp only at h
  subst h
  simp [framePump, hp]

/-- C5, amended part: a failing iteration stops the loop at once — the
loop returns exactly the errno of the first failing iteration, its state
is the state left by that iteration, and none of the remaining iteration
environments is consumed. -/
theorem c5_first_error_stops (s : PumpState) (env : IterEnv) (rest : List IterEnv)
    (e : Errno) (h : (pumpIter s env).2 = some e) :
    framePump s (env :: rest) = ((pumpIter s env).1, some e) :=
  framePump_cons_error s env rest e h

/-- Concrete iteration environment in which DQBUF fails with errno 22
(EINVAL). -/
def c5DeqFailEnv : IterEnv :=
  { selectErrno := 0, deqErrno := 22, frame := [], bytesused := 0, enqErrno := 0 }

/-- Concrete fully successful iteration, never reached in the C5 witness
run because the loop has already stopped. -/
def c5UnreachedEnv : IterEnv :=
  { selectErrno := 0, deqErrno := 0, frame := [7, 7], bytesused := 2, enqErrno := 0 }

/-- C5, witness: a DQBUF failure with errno 22 in the first iteration
makes the loop return errno 22 immediately, ignoring the remaining
iteration environment. -/
theorem c5_first_error_stops_witness :
    (pumpIter (initialState [1, 2]) c5DeqFailEnv).2 = some 22 ∧
    framePump (initialState [1, 2]) [c5DeqFailEnv, c5UnreachedEnv]
      = ((pumpIter (initialState [1, 2]) c5DeqFailEnv).1, some 22) :=
  ⟨by decide,
   c5_first_error_stops (initialState [1, 2]) c5DeqFailEnv [c5UnreachedEnv] 22 (by decide)⟩

/-- Case analysis of a failing iteration: a failure at select or DQBUF
leaves `jpegLen` and the buffer untouched; a failure at QBUF happens after
the successful dequeue already stored that update's frame and bytesused. -/
theorem pumpIter_fail_fields (s : PumpState) (env : IterEnv) (e : Errno)
    (h : (pumpIter s env).2 = some e) :
    ((env.selectErrno ≠ 0 ∨ env.deqErrno ≠ 0) ∧
      (pumpIter s env).1.jpegLen = s.jpegLen ∧ (pumpIter s env).1.data = s.data) ∨
    (env.selectErrno = 0 ∧ env.deqErrno = 0 ∧ env.enqErrno ≠ 0 ∧
      (pumpIter s env).1.jpegLen = env.bytesused ∧ (pumpIter s env).1.data = env.frame) := by
  unfold pumpIter at h ⊢
  split_ifs at h ⊢ with h1 h2 h3
  · exact Or.inl ⟨Or.inl h1, rfl, rfl⟩
  · exact Or.inl ⟨Or.inr h2, rfl, rfl⟩
  · push_neg at h1 h2
    exact Or.inr ⟨h1, h2, h3, rfl, rfl⟩

/-- C6: when the pump loop terminates with an error after a successful
prefix of iterations, the reader path stays operational: the loop result
is that error, the lock is not left held, and the shared state served to
subsequent `getJPEG` calls is exactly the state of the last successful
update — a failure at select or DQBUF leaves `jpegLen` and the buffer
unchanged from the state after the successful prefix, and a failure at
QBUF (after a successful dequeue) leaves them at that dequeue's frame and
bytesused. -/
theorem c6_error_leaves_reader_path (s : PumpState) (pre : List IterEnv)
    (env : IterEnv) (rest : List IterEnv) (e : Errno)
    (hl : s.lockHeld = false)
    (hpre : (framePump s pre).2 = none)
    (hfail : (pumpIter (framePump s pre).1 env).2 = some e) :
    framePump s (pre ++ env :: rest) = ((pumpIter (framePump s pre).1 env).1, some e) ∧
    (pumpIter (framePump s pre).1 env).1.lockHeld = false ∧
    (((env.selectErrno ≠ 0 ∨ env.deqErrno ≠ 0) ∧
       (pumpIter (framePump s pre).1 env).1.jpegLen = (framePump s pre).1.jpegLen ∧
       (pumpIter (framePump s pre).1 env).1.data = (framePump s pre).1.data) ∨
     (env.selectErrno = 0 ∧ env.deqErrno = 0 ∧ env.enqErrno ≠ 0 ∧
       (pumpIter (framePump s pre).1 env).1.jpegLen = env.bytesused ∧
       (pumpIter (framePump s pre).1 env).1.data = env.frame)) := by
  have hmidlock : (framePump s pre).1.lockHeld = false := framePump_lock pre s hl
  refine ⟨?_, pumpIter_lock (framePump s pre).1 env hmidlock, ?_⟩
  · rw [framePump_append pre (env :: rest) s hpre]
    exact framePump_cons_error (framePump s pre).1 env rest e hfail
  · exact pumpIter_fail_fields (framePump s pre).1 env e hfail

/-- Concrete fully successful iteration: the hardware wrote [4, 4, 4, 4]
and DQBUF reported bytesused 4. -/
def c6OkEnv : IterEnv :=
  { selectErrno := 0, deqErrno := 0, frame := [4, 4, 4, 4], bytesused := 4, enqErrno := 0 }

/-- Concrete iteration environment in which QBUF fails with errno 19 after
a successful dequeue of frame [5, 5] with bytesused 2. -/
def c6EnqFailEnv : IterEnv :=
  { selectErrno := 0, deqErrno := 0, frame := [5, 5], bytesused := 2, enqErrno := 19 }

/-- C6, witness: after a successful first update, a QBUF failure in the
second iteration terminates the loop with errno 19 while the reader path
keeps serving that second (successfully dequeued) frame with the lock
free. -/
theorem c6_error_leaves_reader_path_witness :
    ((initialState [0, 0, 0, 0]).lockHeld = false ∧
     (framePump (initialState [0, 0, 0, 0]) [c6OkEnv]).2 = none ∧
     (pumpIter (framePump (initialState [0, 0, 0, 0]) [c6OkEnv]).1 c6EnqFailEnv).2 = some 19) ∧
    (framePump (initialState [0, 0, 0, 0]) ([c6OkEnv] ++ c6EnqFailEnv :: [])
       = ((pumpIter (framePump (initialState [0, 0, 0, 0]) [c6OkEnv]).1 c6EnqFailEnv).1, some 19) ∧
     (pumpIter (framePump (initialState [0, 0, 0, 0]) [c6OkEnv]).1 c6EnqFailEnv).1.lockHeld = false ∧
     (((c6EnqFailEnv.selectErrno ≠ 0 ∨ c6EnqFailEnv.deqErrno ≠ 0) ∧
        (pumpIter (framePump (initialState [0, 0, 0, 0]) [c6OkEnv]).1 c6EnqFailEnv).1.jpegLen
          = (framePump (initialState [0, 0, 0, 0]) [c6OkEnv]).1.jpegLen ∧
        (pumpIter (framePump (initialState [0, 0, 0, 0]) [c6OkEnv]).1 c6EnqFailEnv).1.data
          = (framePump (initialState [0, 0, 0, 0]) [c6OkEnv]).1.data) ∨
      (c6EnqFailEnv.selectErrno = 0 ∧ c6EnqFailEnv.deqErrno = 0 ∧ c6EnqFailEnv.enqErrno ≠ 0 ∧
        (pumpIter (framePump (initialState [0, 0, 0, 0]) [c6OkEnv]).1 c6EnqFailEnv).1.jpegLen
          = c6EnqFailEnv.bytesused ∧
        (pumpIter (framePump (initialState [0, 0, 0, 0]) [c6OkEnv]).1 c6EnqFailEnv).1.data
          = c6EnqFailEnv.frame))) :=
  ⟨⟨by decide, by decide, by decide⟩,
   c6_error_leaves_reader_path (initialState [0, 0, 0, 0]) [c6OkEnv] c6EnqFailEnv [] 19
     (by decide) (by decide) (by decide)⟩

/-- Concrete iteration environment in which the select wait is interrupted
and returns errno 4 (EINTR). -/
def c7IntrEnv : IterEnv :=
  { selectErrno := 4, deqErrno := 0, frame := [], bytesused := 0, enqErrno := 0 }

/-- C7, counterexample: the only external way to interrupt the blocking
`unix.Select` wait (src/main.go line 137 passes a nil timeout and the
source contains no channel, context, or flag consulted by the loop) is to
make the wait return an error, e.g. errno 4 (EINTR); the loop then exits
by returning that error — not the clean exit the claim requires of a
cancellation mechanism. -/
theorem c7_counterexample :
    framePump (initialState [0]) [c7IntrEnv] = (initialState [0], some 4) ∧ (4 : Errno) ≠ 0 := by
  constructor
  · decide
  · decide

/-- C7, amended: the pump loop has no cancellation mechanism — whenever
the loop terminates, it terminates by returning a nonzero device errno;
a clean (error-free) exit is impossible, for every sequence of iteration
outcomes. -/
theorem c7_no_clean_exit (s : PumpState) (envs : List IterEnv) (e : Errno)
    (h : (framePump s envs).2 = some e) : e ≠ 0 := by
  induction envs generalizing s with
  | nil => simp [framePump] at h
  | cons env rest ih =>
    rcases hp : pumpIter s env with ⟨s1, r⟩
    cases r with
    | none =>
      rw [framePump, hp] at h
      exact ih s1 h
    | some e0 =>
      rw [framePump, hp] at h
      simp only [Option.some.injEq] at h
      subst h
      apply pumpIter_error_ne_zero s env e0
      rw [hp]

/-- C7, witness: the interrupted-wait run terminates with errno 4, which
is nonzero. -/
theorem c7_no_clean_exit_witness :
    (framePump (initialState [0]) [c7IntrEnv]).2 = some 4 ∧ (4 : Errno) ≠ 0 :=
  ⟨by decide, c7_no_clean_exit (initialState [0]) [c7IntrEnv] 4 (by decide)⟩

/-- C8, counterexample: when the shutdown STREAMOFF ioctl fails with
errno 16 (EBUSY), the deferred stop path calls `log.Fatal`, which logs
and then aborts the process with exit status 1 — the shutdown path does
not continue, contradicting the best-effort claim. -/
theorem c8_counterexample :
    (stopStreamDefer 16).aborted = true ∧ (stopStreamDefer 16).logged = true := by
  decide

/-- C8, amended: for every nonzero errno returned by STREAMOFF, the
deferred stop path logs the failure and aborts the process via
`log.Fatal` (skipping any remaining deferred cleanup) instead of letting
the shutdown path continue; only a successful STREAMOFF continues
silently. -/
theorem c8_stop_aborts_on_failure (e : Errno) (h : e ≠ 0) :
    stopStreamDefer e = { logged := true, aborted := true } := by
  simp [stopStreamDefer, h]

/-- C8, witness: STREAMOFF failing with errno 19 logs and aborts. -/
theorem c8_stop_aborts_on_failure_witness :
    (19 : Errno) ≠ 0 ∧ stopStreamDefer 19 = { logged := true, aborted := true } :=
  ⟨by decide, c8_stop_aborts_on_failure 19 (by decide)⟩

/-- C9: every response the `getJPEG` handler produces carries
`Cache-Control: no-store`, for every buffer content and every `jpegLen`
value — in particular also before any frame has been captured
(`jpegLen = 0`). -/
theorem c9_no_store (data : List Nat) (jpegLen : Nat) (r : Response)
    (h : getJPEG data jpegLen = some r) : r.cacheControl = "no-store" := by
  unfold getJPEG at h
  split_ifs at h
  simp only [Option.some.injEq] at h
  rw [← h]

/-- C9, witness: the response for a one-byte buffer with `jpegLen = 0`
(no frame captured yet) carries the no-store header. -/
theorem c9_no_store_witness :
    getJPEG [5] 0 = some { cacheControl := "no-store", body := [] } ∧
    ({ cacheControl := "no-store", body := [] } : Response).cacheControl = "no-store" :=
  ⟨by decide, c9_no_store [5] 0 { cacheControl := "no-store", body := [] } (by decide)⟩

/-- C10: serving a frame is well-defined exactly under the unchecked
precondition `jpegLen ≤ len(data)`: the handler produces a response iff
the stored valid-length does not exceed the mapped buffer's length, and
it contains no guard of its own — when the precondition fails, the slice
`data[:jpegLen]` faults (panics), modelled by `none`. -/
theorem c10_slice_bound (data : List Nat) (jpegLen : Nat) :
    (getJPEG data jpegLen).isSome ↔ jpegLen ≤ data.length := by
  unfold getJPEG
  split_ifs with h
  all_goals simp [h]

/-! Concurrent small-step model of the whole system: the pump goroutine,
HTTP reader goroutines, and the capture hardware, interacting through the
shared mapped buffer, `jpegLen` and the RWMutex.  The capture device may
DMA-write into the mapped region at any moment while the buffer slot is
enqueued to it (armed) — `main` enqueues the slot before starting the
pump, and the pump re-enqueues it after releasing the lock — so hardware
writes are steps of their own, not tied to the lock. -/

/-- Position of the pump goroutine inside its loop body. -/
inductive PumpPhase where
  | waiting
  | locked
  | updated
  | enqueuePending
  | terminated (e : Errno)
deriving DecidableEq, Repr

/-- Whether the pump holds the write lock at a given loop position:
between `mutex.Lock()` (line 143) and `mutex.Unlock()` (line 166). -/
def phaseHoldsLock : PumpPhase → Bool
  | PumpPhase.locked => true
  | PumpPhase.updated => true
  | _ => false

/-- Global state of the concurrent system.  `data` is the mapped buffer,
`jpegLen` the shared length variable, `wlock` whether the writer holds the
RWMutex exclusively, `readers` how many readers currently hold it shared,
`armed` whether the buffer slot is currently enqueued to the device (the
device may write into the mapped region whenever it is), `usedLog` the
ghost record of every bytesused value stored by a completed dequeue, and
`readLog` the ghost record of every completed read result. -/
structure Sys where
  data : List Nat
  jpegLen : Nat
  wlock : Bool
  readers : Nat
  phase : PumpPhase
  armed : Bool
  usedLog : List Nat
  readLog : List (Option Response)
deriving DecidableEq, Repr

/-- System state when the pump goroutine starts: `main` has mapped the
buffer, enqueued the initial slot (line 254-268, so it is armed) and
started streaming; `jpegLen` is 0 and no reader is active. -/
def initSys (d : List Nat) : Sys :=
  { data := d, jpegLen := 0, wlock := false, readers := 0,
    phase := PumpPhase.waiting, armed := true, usedLog := [], readLog := [] }

/-- Atomic steps of the system: pump transitions (select failure, Lock,
DQBUF with its bytesused, DQBUF failure, Unlock, QBUF, QBUF failure),
a hardware write into the armed mapped buffer, and reader transitions
(RLock, computing the response, RUnlock). -/
inductive Label where
  | pumpSelectFail (e : Errno)
  | pumpLock
  | pumpDequeue (used : Nat)
  | pumpDequeueFail (e : Errno)
  | pumpUnlock
  | pumpEnqueue
  | pumpEnqueueFail (e : Errno)
  | hwWrite (content : List Nat)
  | readerLock
  | readerRead
  | readerUnlock
deriving DecidableEq, Repr

/-- One step of the system; `none` when the label's precondition does not
hold in the state.  The pump acquires the write lock only when no reader
holds the lock; a reader acquires the read lock only when the writer does
not hold it; DQBUF and the `jpegLen` store happen inside the critical
section, QBUF after the unlock (program order of src/main.go lines
143-177); hardware writes of full mapped-region length happen only while
the slot is armed; a failing DQBUF unlocks and terminates the loop, a
failing QBUF terminates it with the slot left un-armed. -/
def sysStep (s : Sys) : Label → Option Sys
  | Label.pumpSelectFail e =>
    if s.phase = PumpPhase.waiting ∧ e ≠ 0 then
      some { s with phase := PumpPhase.terminated e }
    else none
  | Label.pumpLock =>
    if s.phase = PumpPhase.waiting ∧ s.wlock = false ∧ s.readers = 0 then
      some { s with wlock := true, phase := PumpPhase.locked }
    else none
  | Label.pumpDequeue used =>
    if s.phase = PumpPhase.locked ∧ s.armed = true then
      some { s with armed := false, jpegLen := used, phase := PumpPhase.updated,
                    usedLog := used :: s.usedLog }
    else none
  | Label.pumpDequeueFail e =>
    if s.phase = PumpPhase.locked ∧ e ≠ 0 then
      some { s with wlock := false, phase := PumpPhase.terminated e }
    else none
  | Label.pumpUnlock =>
    if s.phase = PumpPhase.updated then
      some { s with wlock := false, phase := PumpPhase.enqueuePending }
    else none
  | Label.pumpEnqueue =>
    if s.phase = PumpPhase.enqueuePending then
      some { s with armed := true, phase := PumpPhase.waiting }
    else none
  | Label.pumpEnqueueFail e =>
    if s.phase = PumpPhase.enqueuePending ∧ e ≠ 0 then
      some { s with phase := PumpPhase.terminated e }
    else none
  | Label.hwWrite content =>
    if s.armed = true ∧ content.length = s.data.length then
      some { s with data := content }
    else none
  | Label.readerLock =>
    if s.wlock = false then
      some { s with readers := s.readers + 1 }
    else none
  | Label.readerRead =>
    if 0 < s.readers then
      some { s with readLog := getJPEG s.data s.jpegLen :: s.readLog }
    else none
  | Label.readerUnlock =>
    if 0 < s.readers then
      some { s with readers := s.readers - 1 }
    else none

/-- Run of the system over a list of labels; `none` when some label is not
enabled where it occurs. -/
def sysRun (s : Sys) : List Label → Option Sys
  | [] => some s
  | l :: ls =>
    match sysStep s l with
    | some s1 => sysRun s1 ls
    | none => none

/-- Reachability from the start state for mapped buffer contents `d`. -/
def Reach (d : List Nat) (s : Sys) : Prop :=
  ∃ ls : List Label, sysRun (initSys d) ls = some s

/-- System invariant: readers never hold the lock together with the
writer; the write lock is held exactly in the locked/updated pump phases;
the shared `jpegLen` is the initial 0 or the bytesused of some completed
dequeue; the slot is un-armed between DQBUF and QBUF; and every completed
read's body length is 0 or the bytesused of some completed dequeue. -/
def SysInv (s : Sys) : Prop :=
  (s.readers = 0 ∨ s.wlock = false) ∧
  s.wlock = phaseHoldsLock s.phase ∧
  (s.jpegLen = 0 ∨ s.jpegLen ∈ s.usedLog) ∧
  (s.phase = PumpPhase.updated → s.armed = false) ∧
  (s.phase = PumpPhase.enqueuePending → s.armed = false) ∧
  (∀ resp ∈ s.readLog, ∀ r : Response, resp = some r →
    r.body.length = 0 ∨ r.body.length ∈ s.usedLog)

/-- Every enabled step preserves the system invariant. -/
theorem sysStep_inv (s s1 : Sys) (l : Label) (h : sysStep s l = some s1)
    (hinv : SysInv s) : SysInv s1 := by
  obtain ⟨i1, i2, i3, i4, i5, i6⟩ := hinv
  cases l with
  | pumpSelectFail e =>
    simp only [sysStep] at h
    split_ifs at h with hc
    injection h with h
    subst h
    refine ⟨i1, ?_, i3, by simp, by simp, i6⟩
    rw [i2, hc.1]
    rfl
  | pumpLock =>
    simp only [sysStep] at h
    split_ifs at h with hc
    injection h with h
    subst h
    exact ⟨Or.inl hc.2.2, rfl, i3, by simp, by simp, i6⟩
  | pumpDequeue used =>
    simp only [sysStep] at h
    split_ifs at h with hc
    injection h with h
    subst h
    refine ⟨i1, ?_, Or.inr (List.mem_cons_self used s.usedLog), fun _ => rfl, by simp, ?_⟩
    · rw [i2, hc.1]
      rfl
    · intro resp hm r hr
      rcases i6 resp hm r hr with h0 | h0
      · exact Or.inl h0
      · exact Or.inr (List.mem_cons_of_mem used h0)
  | pumpDequeueFail e =>
    simp only [sysStep] at h
    split_ifs at h with hc
    injection h with h
    subst h
    exact ⟨Or.inr rfl, rfl, i3, by simp, by simp, i6⟩
  | pumpUnlock =>
    simp only [sysStep] at h
    split_ifs at h with hc
    injection h with h
    subst h
    exact ⟨Or.inr rfl, rfl, i3, by simp, fun _ => i4 hc, i6⟩
  | pumpEnqueue =>
    simp only [sysStep] at h
    split_ifs at h with hc
    injection h with h
    subst h
    refine ⟨i1, ?_, i3, by simp, by simp, i6⟩
    rw [i2, hc]
    rfl
  | pumpEnqueueFail e =>
    simp only [sysStep] at h
    split_ifs at h with hc
    injection h with h
    subst h
    refine ⟨i1, ?_, i3, by simp, by simp, i6⟩
    rw [i2, hc.1]
    rfl
  | hwWrite content =>
    simp only [sysStep] at h
    split_ifs at h with hc
    injection h with h
    subst h
    exact ⟨i1, i2, i3, i4, i5, i6⟩
  | readerLock =>
    simp only [sysStep] at h
    split_ifs at h with hc
    injection h with h
    subst h
    exact ⟨Or.inr hc, i2, i3, i4, i5, i6⟩
  | readerRead =>
    simp only [sysStep] at h
    split_ifs at h with hc
    injection h with h
    subst h
    refine ⟨i1, i2, i3, i4, i5, ?_⟩
    intro resp hm r hr
    rcases List.mem_cons.mp hm with hm0 | hm0
    · subst hm0
      unfold getJPEG at hr
      split_ifs at hr with hb
      simp only [Option.some.injEq] at hr
      subst hr
      simp only [List.length_take]
      rw [Nat.min_eq_left hb]
      exact i3
    · exact i6 resp hm0 r hr
  | readerUnlock =>
    simp only [sysStep] at h
    split_ifs at h with hc
    injection h with h
    subst h
    refine ⟨?_, i2, i3, i4, i5, i6⟩
    rcases i1 with h0 | h0
    · exact Or.inl (by simp [h0])
    · exact Or.inr h0

/-- The invariant holds in the start state. -/
theorem initSys_inv (d : List Nat) : SysInv (initSys d) :=
  ⟨Or.inl rfl, rfl, Or.inl rfl, by simp [initSys], by simp [initSys], by simp [initSys]⟩

/-- Runs preserve the invariant. -/
theorem sysRun_inv (ls : List Label) :
    ∀ s s1 : Sys, sysRun s ls = some s1 → SysInv s → SysInv s1 := by
  induction ls with
  | nil =>
    intro s s1 h hi
    simp only [sysRun, Option.some.injEq] at h
    subst h
    exact hi
  | cons l ls ih =>
    intro s s1 h hi
    rcases hstep : sysStep s l with _ | s2
    · rw [sysRun, hstep] at h
      exact Option.noConfusion h
    · rw [sysRun, hstep] at h
      exact ih s2 s1 h (sysStep_inv s s2 l hstep hi)

/-- Every reachable state satisfies the invariant. -/
theorem reach_SysInv (d : List Nat) (s : Sys) (h : Reach d s) : SysInv s := by
  obtain ⟨ls, hr⟩ := h
  exact sysRun_inv ls (initSys d) s hr (initSys_inv d)

/-- Interleaving exhibiting a torn read: the hardware fills frame 1
([1,1,1,1]), the pump performs its one and only update (DQBUF with
bytesused 4, store, unlock) and re-enqueues the slot; a reader then takes
the read lock, the armed device starts DMA-writing frame 2 into the mapped
buffer ([2,2,1,1] so far), and the reader computes its response. -/
def c2Trace : List Label :=
  [Label.hwWrite [1, 1, 1, 1], Label.pumpLock, Label.pumpDequeue 4,
   Label.pumpUnlock, Label.pumpEnqueue, Label.readerLock,
   Label.hwWrite [2, 2, 1, 1], Label.readerRead]

/-- C2, counterexample: a reachable interleaving with exactly one
completed pump update (usedLog = [4], produced by the update that wrote
[1,1,1,1]) in which a completed read returns body [2,2,1,1] — the valid
length of update 1 combined with bytes partly overwritten by the armed
device — which is neither update 1's bytes ([1,1,1,1]) nor the initial
(empty) snapshot.  The RWMutex cannot prevent this: the QBUF re-arming
the slot happens outside the critical section, so the device writes into
the mapped buffer while readers hold the read lock. -/
theorem c2_counterexample :
    (sysRun (initSys [0, 0, 0, 0]) c2Trace).map (fun s => (s.readLog, s.usedLog))
      = some ([some { cacheControl := "no-store", body := [2, 2, 1, 1] }], [4]) ∧
    ([2, 2, 1, 1] : List Nat) ≠ List.take 4 [1, 1, 1, 1] ∧
    ([2, 2, 1, 1] : List Nat) ≠ ([] : List Nat) := by
  refine ⟨by decide, by decide, by decide⟩

/-- C2, amended: what the lock does guarantee on every reachable state of
every interleaving: no read overlaps the writer's critical section, the
shared valid-length is always a value written whole by a single completed
update (or the initial 0), and hence every completed read's length is
the bytesused of one single update (or 0); but the buffer BYTES under a
read may be concurrently overwritten by the armed device, so the pair
(bytes, valid-length) returned by a read need not come from one and the
same update. -/
theorem c2_amended (d : List Nat) (s : Sys) (h : Reach d s) :
    ¬(0 < s.readers ∧ s.wlock = true) ∧
    (s.jpegLen = 0 ∨ s.jpegLen ∈ s.usedLog) ∧
    (∀ resp ∈ s.readLog, ∀ r : Response, resp = some r →
      r.body.length = 0 ∨ r.body.length ∈ s.usedLog) := by
  obtain ⟨i1, i2, i3, _, _, i6⟩ := reach_SysInv d s h
  refine ⟨?_, i3, i6⟩
  rintro ⟨hr, hw⟩
  rcases i1 with h0 | h0
  · omega
  · rw [hw] at h0
    exact Bool.noConfusion h0

/-- C2, witness for the amended theorem: the initial state is reachable by
the empty run and satisfies the three conclusions. -/
theorem c2_amended_witness :
    sysRun (initSys [0]) [] = some (initSys [0]) ∧
    (¬(0 < (initSys [0]).readers ∧ (initSys [0]).wlock = true) ∧
     ((initSys [0]).jpegLen = 0 ∨ (initSys [0]).jpegLen ∈ (initSys [0]).usedLog) ∧
     (∀ resp ∈ (initSys [0]).readLog, ∀ r : Response, resp = some r →
       r.body.length = 0 ∨ r.body.length ∈ (initSys [0]).usedLog)) :=
  ⟨rfl, c2_amended [0] (initSys [0]) ⟨[], rfl⟩⟩

/-- C4: the re-enqueue follows the unlock and never precedes it.  First,
structurally: the only transition of the step relation that arms the slot
is the QBUF step, and it fires only in the post-unlock pump phase.
Second, on every reachable state: in the post-unlock phase the exclusive
lock is already released (so the arming enqueue never occurs inside the
critical section), and no reader ever holds shared access while the pump
holds the exclusive lock — hence no reachable state has a reader reading
while the slot is armed by an enqueue occurring inside that same
iteration's critical section. -/
theorem c4_enqueue_after_unlock :
    (∀ (s s1 : Sys) (l : Label), sysStep s l = some s1 →
       s1.armed = true → s.armed = false →
       l = Label.pumpEnqueue ∧ s.phase = PumpPhase.enqueuePending) ∧
    (∀ (d : List Nat) (s : Sys), Reach d s →
       (s.phase = PumpPhase.enqueuePending → s.wlock = false) ∧
       ¬(0 < s.readers ∧ s.wlock = true)) := by
  constructor
  · intro s s1 l h ha hna
    cases l with
    | pumpSelectFail e =>
      simp only [sysStep] at h
      split_ifs at h with hc
      injection h with h
      subst h
      have ha2 : s.armed = true := ha
      rw [hna] at ha2
      exact Bool.noConfusion ha2
    | pumpLock =>
      simp only [sysStep] at h
      split_ifs at h with hc
      injection h with h
      subst h
      have ha2 : s.armed = true := ha
      rw [hna] at ha2
      exact Bool.noConfusion ha2
    | pumpDequeue used =>
      simp only [sysStep] at h
      split_ifs at h with hc
      injection h with h
      subst h
      exact Bool.noConfusion ha
    | pumpDequeueFail e =>
      simp only [sysStep] at h
      split_ifs at h with hc
      injection h with h
      subst h
      have ha2 : s.armed = true := ha
      rw [hna] at ha2
      exact Bool.noConfusion ha2
    | pumpUnlock =>
      simp only [sysStep] at h
      split_ifs at h with hc
      injection h with h
      subst h
      have ha2 : s.armed = true := ha
      rw [hna] at ha2
      exact Bool.noConfusion ha2
    | pumpEnqueue =>
      simp only [sysStep] at h
      split_ifs at h with hc
      injection h with h
      subst h
      exact ⟨rfl, hc⟩
    | pumpEnqueueFail e =>
      simp only [sysStep] at h
      split_ifs at h with hc
      injection h with h
      subst h
      have ha2 : s.armed = true := ha
      rw [hna] at ha2
      exact Bool.noConfusion ha2
    | hwWrite content =>
      simp only [sysStep] at h
      split_ifs at h with hc
      injection h with h
      subst h
      have ha2 : s.armed = true := ha
      rw [hna] at ha2
      exact Bool.noConfusion ha2
    | readerLock =>
      simp only [sysStep] at h
      split_ifs at h with hc
      injection h with h
      subst h
      have ha2 : s.armed = true := ha
      rw [hna] at ha2
      exact Bool.noConfusion ha2
    | readerRead =>
      simp only [sysStep] at h
      split_ifs at h with hc
      injection h with h
      subst h
      have ha2 : s.armed = true := ha
      rw [hna] at ha2
      exact Bool.noConfusion ha2
    | readerUnlock =>
      simp only [sysStep] at h
      split_ifs at h with hc
      injection h with h
      subst h
      have ha2 : s.armed = true := ha
      rw [hna] at ha2
      exact Bool.noConfusion ha2
  · intro d s h
    obtain ⟨i1, i2, _, _, _, _⟩ := reach_SysInv d s h
    constructor
    · intro hp
      rw [i2, hp]
      rfl
    · rintro ⟨hr, hw⟩
      rcases i1 with h0 | h0
      · omega
      · rw [hw] at h0
        exact Bool.noConfusion h0

/-- State just before a re-enqueue: lock released, slot un-armed. -/
def c4PreSys : Sys :=
  { data := [0], jpegLen := 0, wlock := false, readers := 0,
    phase := PumpPhase.enqueuePending, armed := false, usedLog := [], readLog := [] }

/-- State just after the re-enqueue from `c4PreSys`. -/
def c4PostSys : Sys :=
  { data := [0], jpegLen := 0, wlock := false, readers := 0,
    phase := PumpPhase.waiting, armed := true, usedLog := [], readLog := [] }

/-- C4, witness: the concrete QBUF step from the post-unlock phase arms
the slot, and the reachable initial state satisfies the lock facts. -/
theorem c4_enqueue_after_unlock_witness :
    (sysStep c4PreSys Label.pumpEnqueue = some c4PostSys ∧
     c4PostSys.armed = true ∧ c4PreSys.armed = false ∧
     (Label.pumpEnqueue = Label.pumpEnqueue ∧ c4PreSys.phase = PumpPhase.enqueuePending)) ∧
    (sysRun (initSys [0]) [] = some (initSys [0]) ∧
     ((initSys [0]).phase = PumpPhase.enqueuePending → (initSys [0]).wlock = false) ∧
     ¬(0 < (initSys [0]).readers ∧ (initSys [0]).wlock = true)) :=
  ⟨⟨by decide, by decide, by decide,
    c4_enqueue_after_unlock.1 c4PreSys c4PostSys Label.pumpEnqueue
      (by decide) (by decide) (by decide)⟩,
   rfl, (c4_enqueue_after_unlock.2 [0] (initSys [0]) ⟨[], rfl⟩).1,
   (c4_enqueue_after_unlock.2 [0] (initSys [0]) ⟨[], rfl⟩).2⟩

/-- Interleaving in which the pump performs one successful update of frame
[9,9] (bytesused 2), then dies on a DQBUF failure with errno 5, after
which a reader still completes a full read. -/
def c5Trace : List Label :=
  [Label.hwWrite [9, 9], Label.pumpLock, Label.pumpDequeue 2,
   Label.pumpUnlock, Label.pumpEnqueue, Label.pumpLock,
   Label.pumpDequeueFail 5, Label.readerLock, Label.readerRead,
   Label.readerUnlock]

/-- C5, counterexample to the fatal-surfacing part: after the pump loop
terminates with errno 5, the system keeps running and a reader completes
a normal read of the last frame — the error does not surface as a
process-level condition.  In the source the pump is spawned as
`go framePump(dev)` (line 282): the goroutine's returned error is
discarded and nothing shuts the HTTP server down. -/
theorem c5_counterexample :
    (sysRun (initSys [0, 0]) c5Trace).map (fun s => (s.phase, s.readLog))
      = some (PumpPhase.terminated 5,
              [some { cacheControl := "no-store", body := [9, 9] }]) := by
  decide

end Frameserver
